import Mathlib

/-!
Verification of `transcribe_mp4.py`, a single-file CLI program that
transcribes one local MP4 file through a remote speech-to-text API and
writes the resulting text to `<input-stem>_transcript.txt`.

The embedding is shallow and executable.  The outside world visible to
one run of the program is captured by a `World` value: the credential
environment variable, the set of existing files with their byte sizes,
and the outcome of the (single) remote transcription call.  Every
observable action of the program — console prints, environment reads,
filesystem probes, opening/closing the input handle, the network call,
and the output write — is recorded as an `Event`, so ordering and
absence properties can be stated over the produced trace.

Machine floats in the size check (`os.path.getsize(p) / (1024*1024) > 25`)
are modelled over `ℚ`: for every byte size below 2^53 the IEEE double
division by 2^20 is exact (it only shifts the exponent), so the rational
comparison coincides with the Python one; above 2^53 both sides are far
beyond the 25 threshold, so the verdicts also agree.
-/

namespace TranscribeMp4

/-- Outcome of the single remote transcription call: either a transcript
text (`response_format="text"` returns a plain string) or a raised
exception carrying the message `str(e)`. -/
inductive RemoteResult where
  | ok (text : String)
  | err (msg : String)
deriving DecidableEq

/-- The world one process run observes: the `OPENAI_API_KEY` environment
variable (`none` = unset), the existing files with their sizes in bytes,
and the remote call's outcome. -/
structure World where
  apiKey : Option String
  files : List (String × Nat)
  remote : RemoteResult
deriving DecidableEq

/-- Observable actions of the program, in program order. -/
inductive Event where
  | readEnv (name : String)
  | checkExists (path : String) (result : Bool)
  | getSize (path : String) (size : Nat)
  | openFile (path : String)
  | remoteCall (r : RemoteResult)
  | closeFile (path : String)
  | print (line : String)
  | writeFile (name : String) (content : String)
deriving DecidableEq

/-- `os.path.exists(p)` against the modelled file table. -/
def fileExists (w : World) (p : String) : Bool :=
  (w.files.lookup p).isSome

/-- `os.path.getsize(p)` in bytes (only queried on existing files). -/
def fileSize (w : World) (p : String) : Nat :=
  (w.files.lookup p).getD 0

/-- `file_size = os.path.getsize(file_path) / (1024 * 1024)`: the byte
count divided by 2^20, exact over `ℚ` just as the double division is. -/
def sizeMB (size : Nat) : ℚ :=
  (size : ℚ) / (1024 * 1024)

/-- Python `f"{file_size:.1f}"` applied to the exact dyadic value
`size / 2^20`: correct rounding to one decimal digit, ties to even. -/
def fmt1 (size : Nat) : String :=
  let n := 10 * size
  let d := 1024 * 1024
  let q := n / d
  let r := n % d
  let tenths :=
    if 2 * r < d then q
    else if d < 2 * r then q + 1
    else if q % 2 = 0 then q else q + 1
  toString (tenths / 10) ++ "." ++ toString (tenths % 10)

/-- `"=" * 50`. -/
def eqRule : String :=
  String.mk (List.replicate 50 '=')

/-- `PurePath.name`: the final path component, with empty and `"."`
components dropped as `pathlib` normalisation does. -/
def pathName (p : String) : String :=
  let comps := (p.splitOn "/").filter (fun s => s ≠ "" && s ≠ ".")
  match comps.getLast? with
  | some s => s
  | none => ""

/-- `PurePath.stem`: the name minus its last suffix.  CPython keeps the
whole name unless the last dot index `i` satisfies `0 < i < len - 1`. -/
def pathStem (p : String) : String :=
  let name := pathName p
  let cs := name.toList
  let dots := (List.range cs.length).filter (fun i => cs.getD i ' ' = '.')
  match dots.getLast? with
  | some i => if 0 < i ∧ i + 1 < cs.length then String.mk (cs.take i) else name
  | none => name

/-- Python truthiness of `os.getenv(...)`: `None` and `""` are falsy. -/
def envTruthy : Option String → Bool
  | none => false
  | some s => s != ""

/-- `transcribe_mp4(file_path)`: returns the transcript (`None` on any
failure) together with the trace of observable actions.  The leading
`readEnv` models the `OpenAI(api_key=os.getenv('OPENAI_API_KEY'))`
client construction at the top of the function. -/
def transcribe_mp4 (w : World) (file_path : String) : Option String × List Event :=
  let clientInit : List Event := [Event.readEnv "OPENAI_API_KEY"]
  if fileExists w file_path = false then
    (none, clientInit ++ [Event.checkExists file_path false,
      Event.print ("Error: File \x27" ++ file_path ++ "\x27 not found.")])
  else
    let size := fileSize w file_path
    let checks := clientInit ++
      [Event.checkExists file_path true, Event.getSize file_path size]
    if 25 < sizeMB size then
      (none, checks ++ [
        Event.print ("Error: File size (" ++ fmt1 size ++
          "MB) exceeds OpenAI\x27s 25MB limit."),
        Event.print "Consider splitting the file or using a smaller file."])
    else
      let pre := checks ++ [
        Event.print ("Transcribing: " ++ file_path),
        Event.print ("File size: " ++ fmt1 size ++ "MB"),
        Event.print "Processing... (this may take a moment)",
        Event.openFile file_path]
      match w.remote with
      | RemoteResult.ok text =>
          (some text,
            pre ++ [Event.remoteCall (RemoteResult.ok text),
              Event.closeFile file_path])
      | RemoteResult.err msg =>
          (none,
            pre ++ [Event.remoteCall (RemoteResult.err msg),
              Event.closeFile file_path,
              Event.print ("Error during transcription: " ++ msg)])

/-- Result of one process run: the exit status and the event trace. -/
structure RunResult where
  exitCode : Nat
  events : List Event
deriving DecidableEq

/-- `main()` with `argv` modelling `sys.argv` (program name included).
`sys.exit(1)` becomes exit code 1; falling off the end is exit code 0. -/
def main (argv : List String) (w : World) : RunResult :=
  match argv with
  | [_prog, file_path] =>
    if envTruthy w.apiKey = false then
      { exitCode := 1, events := [
          Event.readEnv "OPENAI_API_KEY",
          Event.print "Error: OPENAI_API_KEY environment variable is not set.",
          Event.print "Make sure your .env file is loaded or export the key manually."] }
    else
      let res := transcribe_mp4 w file_path
      let evs := Event.readEnv "OPENAI_API_KEY" :: res.2
      match res.1 with
      | some t =>
        if t != "" then
          let output_file := pathStem file_path ++ "_transcript.txt"
          { exitCode := 0, events := evs ++ [
              Event.print ("\n" ++ eqRule),
              Event.print "TRANSCRIPTION:",
              Event.print eqRule,
              Event.print t,
              Event.print eqRule,
              Event.writeFile output_file t,
              Event.print ("\nTranscription saved to: " ++ output_file)] }
        else
          { exitCode := 1, events := evs ++ [Event.print "Transcription failed."] }
      | none =>
          { exitCode := 1, events := evs ++ [Event.print "Transcription failed."] }
  | _ =>
    { exitCode := 1, events := [
        Event.print "Usage: python transcribe_mp4.py <path_to_mp4_file>",
        Event.print "Example: python transcribe_mp4.py ./my_video.mp4"] }

/-- The events `transcribe_mp4` emits between its successful checks and the
opening of the input handle: client init, existence check, size probe and
the three progress prints. -/
def checkTrace (w : World) (p : String) : List Event :=
  [Event.readEnv "OPENAI_API_KEY",
   Event.checkExists p true,
   Event.getSize p (fileSize w p),
   Event.print ("Transcribing: " ++ p),
   Event.print ("File size: " ++ fmt1 (fileSize w p) ++ "MB"),
   Event.print "Processing... (this may take a moment)"]

/-- `checkTrace` followed by the opening of the input handle. -/
def preTrace (w : World) (p : String) : List Event :=
  checkTrace w p ++ [Event.openFile p]

/-- The full `main` trace of a successful run on input `p` with transcript
`t`. -/
def successTrace (w : World) (p t : String) : List Event :=
  Event.readEnv "OPENAI_API_KEY" :: preTrace w p ++
    [Event.remoteCall (RemoteResult.ok t),
     Event.closeFile p,
     Event.print ("\n" ++ eqRule),
     Event.print "TRANSCRIPTION:",
     Event.print eqRule,
     Event.print t,
     Event.print eqRule,
     Event.writeFile (pathStem p ++ "_transcript.txt") t,
     Event.print ("\nTranscription saved to: " ++ (pathStem p ++ "_transcript.txt"))]

/-- Events that touch the filesystem or the network. -/
def touchesFsNet : Event → Bool
  | Event.checkExists _ _ => true
  | Event.getSize _ _ => true
  | Event.openFile _ => true
  | Event.closeFile _ => true
  | Event.remoteCall _ => true
  | Event.writeFile _ _ => true
  | _ => false

/-- Events on the input file handle. -/
def isHandleEvent : Event → Bool
  | Event.openFile _ => true
  | Event.closeFile _ => true
  | _ => false

/-- Effect of one event on a file store; `open(name, 'w')` truncates, so a
write replaces any previous content wholesale. -/
def applyEvent (fs : String → Option String) : Event → (String → Option String)
  | Event.writeFile n c => fun q => if q = n then some c else fs q
  | _ => fs

/-- The file store left behind by a run's event trace. -/
def runFiles (fs : String → Option String) (r : RunResult) : String → Option String :=
  r.events.foldl applyEvent fs

/-- Concrete world of the spec's success scenario. -/
def wDemo : World :=
  { apiKey := some "sk-test",
    files := [("clip.mp4", 1000)],
    remote := RemoteResult.ok "hello world" }

/-- Concrete world whose remote call returns the empty transcript. -/
def wEmptyT : World :=
  { apiKey := some "sk-test",
    files := [("clip.mp4", 1000)],
    remote := RemoteResult.ok "" }

/-- Concrete world whose remote call raises an exception. -/
def wRaise : World :=
  { apiKey := some "sk-test",
    files := [("clip.mp4", 1000)],
    remote := RemoteResult.err "Connection reset" }

/-- Concrete world with the credential variable unset. -/
def wNoKey : World :=
  { apiKey := none,
    files := [("clip.mp4", 1000)],
    remote := RemoteResult.ok "hello world" }

/-- Concrete world with no files at all. -/
def wNoFile : World :=
  { apiKey := some "sk-test",
    files := [],
    remote := RemoteResult.ok "hello world" }

/-- Concrete world holding a file of exactly 25 * 1048576 bytes. -/
def wBoundary : World :=
  { apiKey := some "sk-test",
    files := [("big.mp4", 26214400)],
    remote := RemoteResult.ok "hello world" }

lemma sizeMB_gt_iff (size : Nat) : ((25 : ℚ) < sizeMB size) ↔ 26214400 < size := by
  unfold sizeMB
  rw [lt_div_iff₀ (by norm_num : (0 : ℚ) < 1024 * 1024)]
  constructor
  · intro h
    exact_mod_cast h
  · intro h
    exact_mod_cast h

lemma transcribe_notfound (w : World) (p : String) (hex : fileExists w p = false) :
    transcribe_mp4 w p = (none,
      [Event.readEnv "OPENAI_API_KEY",
       Event.checkExists p false,
       Event.print ("Error: File \x27" ++ p ++ "\x27 not found.")]) := by
  simp [transcribe_mp4, hex]

lemma transcribe_toobig (w : World) (p : String) (hex : fileExists w p = true)
    (hsz : 26214400 < fileSize w p) :
    transcribe_mp4 w p = (none,
      [Event.readEnv "OPENAI_API_KEY",
       Event.checkExists p true,
       Event.getSize p (fileSize w p),
       Event.print ("Error: File size (" ++ fmt1 (fileSize w p) ++
         "MB) exceeds OpenAI\x27s 25MB limit."),
       Event.print "Consider splitting the file or using a smaller file."]) := by
  have h1 : (25 : ℚ) < sizeMB (fileSize w p) := (sizeMB_gt_iff _).mpr hsz
  simp [transcribe_mp4, hex, h1]

lemma transcribe_ok (w : World) (p t : String) (hex : fileExists w p = true)
    (hsz : fileSize w p ≤ 26214400) (hr : w.remote = RemoteResult.ok t) :
    transcribe_mp4 w p = (some t,
      preTrace w p ++ [Event.remoteCall (RemoteResult.ok t), Event.closeFile p]) := by
  have h1 : ¬ (25 : ℚ) < sizeMB (fileSize w p) := by
    rw [sizeMB_gt_iff]
    omega
  simp [transcribe_mp4, hex, h1, hr, preTrace, checkTrace]

lemma transcribe_err (w : World) (p m : String) (hex : fileExists w p = true)
    (hsz : fileSize w p ≤ 26214400) (hr : w.remote = RemoteResult.err m) :
    transcribe_mp4 w p = (none,
      preTrace w p ++ [Event.remoteCall (RemoteResult.err m), Event.closeFile p,
        Event.print ("Error during transcription: " ++ m)]) := by
  have h1 : ¬ (25 : ℚ) < sizeMB (fileSize w p) := by
    rw [sizeMB_gt_iff]
    omega
  simp [transcribe_mp4, hex, h1, hr, preTrace, checkTrace]

lemma main_usage (w : World) (argv : List String) (h : argv.length ≠ 2) :
    main argv w = { exitCode := 1, events := [
      Event.print "Usage: python transcribe_mp4.py <path_to_mp4_file>",
      Event.print "Example: python transcribe_mp4.py ./my_video.mp4"] } := by
  match argv with
  | [] => rfl
  | [_] => rfl
  | [_, _] => exact absurd rfl h
  | _ :: _ :: _ :: _ => rfl

lemma main_nokey (w : World) (prog p : String) (hk : envTruthy w.apiKey = false) :
    main [prog, p] w = { exitCode := 1, events := [
      Event.readEnv "OPENAI_API_KEY",
      Event.print "Error: OPENAI_API_KEY environment variable is not set.",
      Event.print "Make sure your .env file is loaded or export the key manually."] } := by
  simp [main, hk]

lemma main_notfound (w : World) (prog p : String) (hk : envTruthy w.apiKey = true)
    (hex : fileExists w p = false) :
    main [prog, p] w = { exitCode := 1, events := [
      Event.readEnv "OPENAI_API_KEY",
      Event.readEnv "OPENAI_API_KEY",
      Event.checkExists p false,
      Event.print ("Error: File \x27" ++ p ++ "\x27 not found."),
      Event.print "Transcription failed."] } := by
  simp [main, hk, transcribe_notfound w p hex]

lemma main_toobig (w : World) (prog p : String) (hk : envTruthy w.apiKey = true)
    (hex : fileExists w p = true) (hsz : 26214400 < fileSize w p) :
    main [prog, p] w = { exitCode := 1, events := [
      Event.readEnv "OPENAI_API_KEY",
      Event.readEnv "OPENAI_API_KEY",
      Event.checkExists p true,
      Event.getSize p (fileSize w p),
      Event.print ("Error: File size (" ++ fmt1 (fileSize w p) ++
        "MB) exceeds OpenAI\x27s 25MB limit."),
      Event.print "Consider splitting the file or using a smaller file.",
      Event.print "Transcription failed."] } := by
  simp [main, hk, transcribe_toobig w p hex hsz]

lemma main_err (w : World) (prog p m : String) (hk : envTruthy w.apiKey = true)
    (hex : fileExists w p = true) (hsz : fileSize w p ≤ 26214400)
    (hr : w.remote = RemoteResult.err m) :
    main [prog, p] w = ⟨1,
      Event.readEnv "OPENAI_API_KEY" :: preTrace w p ++
        [Event.remoteCall (RemoteResult.err m), Event.closeFile p,
         Event.print ("Error during transcription: " ++ m),
         Event.print "Transcription failed."]⟩ := by
  simp [main, hk, transcribe_err w p m hex hsz hr]

lemma main_emptyt (w : World) (prog p : String) (hk : envTruthy w.apiKey = true)
    (hex : fileExists w p = true) (hsz : fileSize w p ≤ 26214400)
    (hr : w.remote = RemoteResult.ok "") :
    main [prog, p] w = ⟨1,
      Event.readEnv "OPENAI_API_KEY" :: preTrace w p ++
        [Event.remoteCall (RemoteResult.ok ""), Event.closeFile p,
         Event.print "Transcription failed."]⟩ := by
  simp [main, hk, transcribe_ok w p "" hex hsz hr]

lemma main_success (w : World) (prog p t : String) (hk : envTruthy w.apiKey = true)
    (hex : fileExists w p = true) (hsz : fileSize w p ≤ 26214400)
    (hr : w.remote = RemoteResult.ok t) (ht : t ≠ "") :
    main [prog, p] w = { exitCode := 0, events := successTrace w p t } := by
  simp [main, hk, transcribe_ok w p t hex hsz hr, ht, successTrace]

/-- C1: for every invocation with an existing input file of at most
25 MiB (26214400 bytes) whose remote call succeeds with non-empty text
`t`, `main` prints the transcript between 50-character `=` rule lines
under a `TRANSCRIPTION:` header, writes exactly `t` (no added framing)
to the file named from the input's stem plus `_transcript.txt`, prints a
confirmation naming that file, and exits with status 0 — the run is
exactly `successTrace`. -/
theorem success_run_behavior (w : World) (prog p t : String)
    (hk : envTruthy w.apiKey = true) (hex : fileExists w p = true)
    (hsz : fileSize w p ≤ 26214400) (hr : w.remote = RemoteResult.ok t)
    (ht : t ≠ "") :
    main [prog, p] w = { exitCode := 0, events := successTrace w p t } :=
  main_success w prog p t hk hex hsz hr ht

/-- Witness for C1 at the spec's example: input `clip.mp4`, transcript
`hello world`. -/
theorem success_run_behavior_witness :
    main ["transcribe_mp4.py", "clip.mp4"] wDemo =
      { exitCode := 0, events := successTrace wDemo "clip.mp4" "hello world" } :=
  success_run_behavior wDemo "transcribe_mp4.py" "clip.mp4" "hello world"
    rfl rfl (by decide) rfl (by decide)

/-- C3: a remote call that succeeds but returns the empty transcript is
treated as a failure: `main` prints `Transcription failed.`, exits with
status 1, and its trace contains no file write. -/
theorem empty_transcript_fails (w : World) (prog p : String)
    (hk : envTruthy w.apiKey = true) (hex : fileExists w p = true)
    (hsz : fileSize w p ≤ 26214400) (hr : w.remote = RemoteResult.ok "") :
    main [prog, p] w = ⟨1,
      Event.readEnv "OPENAI_API_KEY" :: preTrace w p ++
        [Event.remoteCall (RemoteResult.ok ""), Event.closeFile p,
         Event.print "Transcription failed."]⟩ ∧
    ∀ n c, Event.writeFile n c ∉ (main [prog, p] w).events := by
  have h := main_emptyt w prog p hk hex hsz hr
  refine ⟨h, ?_⟩
  rw [h]
  intro n c hmem
  simp [preTrace, checkTrace] at hmem

/-- Witness for C3: remote call returns `""` for `clip.mp4`. -/
theorem empty_transcript_fails_witness :
    (main ["transcribe_mp4.py", "clip.mp4"] wEmptyT = ⟨1,
      Event.readEnv "OPENAI_API_KEY" :: preTrace wEmptyT "clip.mp4" ++
        [Event.remoteCall (RemoteResult.ok ""), Event.closeFile "clip.mp4",
         Event.print "Transcription failed."]⟩ ∧
    ∀ n c, Event.writeFile n c ∉
      (main ["transcribe_mp4.py", "clip.mp4"] wEmptyT).events) :=
  empty_transcript_fails wEmptyT "transcribe_mp4.py" "clip.mp4"
    rfl rfl (by decide) rfl

/-- C5: if the remote call raises an exception with message `m`, `main`
prints the message text (`Error during transcription: m`), exits with
status 1, attempts exactly one remote call, and writes no output file. -/
theorem remote_error_fails (w : World) (prog p m : String)
    (hk : envTruthy w.apiKey = true) (hex : fileExists w p = true)
    (hsz : fileSize w p ≤ 26214400) (hr : w.remote = RemoteResult.err m) :
    main [prog, p] w = ⟨1,
      Event.readEnv "OPENAI_API_KEY" :: preTrace w p ++
        [Event.remoteCall (RemoteResult.err m), Event.closeFile p,
         Event.print ("Error during transcription: " ++ m),
         Event.print "Transcription failed."]⟩ ∧
    ∀ n c, Event.writeFile n c ∉ (main [prog, p] w).events := by
  have h := main_err w prog p m hk hex hsz hr
  refine ⟨h, ?_⟩
  rw [h]
  intro n c hmem
  simp [preTrace, checkTrace] at hmem

/-- Witness for C5: remote call raising `Connection reset`. -/
theorem remote_error_fails_witness :
    (main ["transcribe_mp4.py", "clip.mp4"] wRaise = ⟨1,
      Event.readEnv "OPENAI_API_KEY" :: preTrace wRaise "clip.mp4" ++
        [Event.remoteCall (RemoteResult.err "Connection reset"),
         Event.closeFile "clip.mp4",
         Event.print ("Error during transcription: " ++ "Connection reset"),
         Event.print "Transcription failed."]⟩ ∧
    ∀ n c, Event.writeFile n c ∉
      (main ["transcribe_mp4.py", "clip.mp4"] wRaise).events) :=
  remote_error_fails wRaise "transcribe_mp4.py" "clip.mp4" "Connection reset"
    rfl rfl (by decide) rfl

/-- C6: with the credential variable unset or empty, `main` prints the
explanatory message and exits with status 1, and its trace contains no
file-existence check, no other filesystem access, and no network
access — only the environment read and the two prints. -/
theorem missing_key_exits_early (w : World) (prog p : String)
    (hk : envTruthy w.apiKey = false) :
    main [prog, p] w = { exitCode := 1, events := [
      Event.readEnv "OPENAI_API_KEY",
      Event.print "Error: OPENAI_API_KEY environment variable is not set.",
      Event.print "Make sure your .env file is loaded or export the key manually."] } ∧
    ∀ e ∈ (main [prog, p] w).events, touchesFsNet e = false := by
  have h := main_nokey w prog p hk
  refine ⟨h, ?_⟩
  rw [h]
  intro e hmem
  fin_cases hmem <;> simp [touchesFsNet]

/-- Witness for C6: the credential is unset. -/
theorem missing_key_exits_early_witness :
    (main ["transcribe_mp4.py", "clip.mp4"] wNoKey = { exitCode := 1, events := [
      Event.readEnv "OPENAI_API_KEY",
      Event.print "Error: OPENAI_API_KEY environment variable is not set.",
      Event.print "Make sure your .env file is loaded or export the key manually."] } ∧
    ∀ e ∈ (main ["transcribe_mp4.py", "clip.mp4"] wNoKey).events,
      touchesFsNet e = false) :=
  missing_key_exits_early wNoKey "transcribe_mp4.py" "clip.mp4" rfl

/-- C7: with an argument count other than one (`sys.argv` length other
than two), `main` prints the usage text and exits with status 1; the
trace contains no environment read, no filesystem access, no network
access and no write — the usage error precedes every other check. -/
theorem usage_error_first (w : World) (argv : List String)
    (h : argv.length ≠ 2) :
    main argv w = { exitCode := 1, events := [
      Event.print "Usage: python transcribe_mp4.py <path_to_mp4_file>",
      Event.print "Example: python transcribe_mp4.py ./my_video.mp4"] } ∧
    ∀ e ∈ (main argv w).events,
      touchesFsNet e = false ∧ ∀ n, e ≠ Event.readEnv n := by
  have hu := main_usage w argv h
  refine ⟨hu, ?_⟩
  rw [hu]
  intro e hmem
  fin_cases hmem <;> simp [touchesFsNet]

/-- Witness for C7: invocation with no positional argument. -/
theorem usage_error_first_witness :
    (main ["transcribe_mp4.py"] wDemo = { exitCode := 1, events := [
      Event.print "Usage: python transcribe_mp4.py <path_to_mp4_file>",
      Event.print "Example: python transcribe_mp4.py ./my_video.mp4"] } ∧
    ∀ e ∈ (main ["transcribe_mp4.py"] wDemo).events,
      touchesFsNet e = false ∧ ∀ n, e ≠ Event.readEnv n) :=
  usage_error_first wDemo ["transcribe_mp4.py"] (by decide)

/-- C8: with the credential set and a path that does not resolve to an
existing file, the existence check runs inside `transcribe_mp4` (after
the credential check, whose environment read opens the trace), prints an
error naming the path, and `main` exits with status 1 without any remote
call. -/
theorem missing_file_no_network (w : World) (prog p : String)
    (hk : envTruthy w.apiKey = true) (hex : fileExists w p = false) :
    transcribe_mp4 w p = (none,
      [Event.readEnv "OPENAI_API_KEY",
       Event.checkExists p false,
       Event.print ("Error: File \x27" ++ p ++ "\x27 not found.")]) ∧
    main [prog, p] w = { exitCode := 1, events := [
      Event.readEnv "OPENAI_API_KEY",
      Event.readEnv "OPENAI_API_KEY",
      Event.checkExists p false,
      Event.print ("Error: File \x27" ++ p ++ "\x27 not found."),
      Event.print "Transcription failed."] } ∧
    ∀ r, Event.remoteCall r ∉ (main [prog, p] w).events := by
  have h := main_notfound w prog p hk hex
  refine ⟨transcribe_notfound w p hex, h, ?_⟩
  rw [h]
  intro r hmem
  simp at hmem

/-- Witness for C8: `clip.mp4` does not exist in `wNoFile`. -/
theorem missing_file_no_network_witness :
    (transcribe_mp4 wNoFile "clip.mp4" = (none,
      [Event.readEnv "OPENAI_API_KEY",
       Event.checkExists "clip.mp4" false,
       Event.print ("Error: File \x27" ++ "clip.mp4" ++ "\x27 not found.")]) ∧
    main ["transcribe_mp4.py", "clip.mp4"] wNoFile = { exitCode := 1, events := [
      Event.readEnv "OPENAI_API_KEY",
      Event.readEnv "OPENAI_API_KEY",
      Event.checkExists "clip.mp4" false,
      Event.print ("Error: File \x27" ++ "clip.mp4" ++ "\x27 not found."),
      Event.print "Transcription failed."] } ∧
    ∀ r, Event.remoteCall r ∉
      (main ["transcribe_mp4.py", "clip.mp4"] wNoFile).events) :=
  missing_file_no_network wNoFile "transcribe_mp4.py" "clip.mp4" rfl rfl

/-- C2: for an existing input file the size check is exact on the
boundary: `transcribe_mp4` rejects (no transcript, limit message printed
with the measured size formatted to one decimal place, no remote call)
if and only if the byte size strictly exceeds 25 * 1048576; in
particular a file of exactly 25 * 1048576 bytes is accepted. -/
theorem size_boundary_exact (w : World) (p : String)
    (hex : fileExists w p = true) :
    ((transcribe_mp4 w p).1 = none ∧
      Event.print ("Error: File size (" ++ fmt1 (fileSize w p) ++
        "MB) exceeds OpenAI\x27s 25MB limit.") ∈ (transcribe_mp4 w p).2 ∧
      ∀ r, Event.remoteCall r ∉ (transcribe_mp4 w p).2)
    ↔ 25 * 1048576 < fileSize w p := by
  constructor
  · rintro ⟨-, -, h3⟩
    by_contra hle
    push_neg at hle
    have hle' : fileSize w p ≤ 26214400 := by omega
    cases hrem : w.remote with
    | ok t =>
      rw [transcribe_ok w p t hex hle' hrem] at h3
      exact h3 (RemoteResult.ok t) (by simp)
    | err m =>
      rw [transcribe_err w p m hex hle' hrem] at h3
      exact h3 (RemoteResult.err m) (by simp)
  · intro hgt
    rw [transcribe_toobig w p hex (by omega)]
    refine ⟨rfl, by simp, ?_⟩
    intro r hmem
    simp at hmem

/-- Witness for C2: a file of exactly 25 * 1048576 bytes; both sides of
the equivalence are false there, so the boundary file is accepted. -/
theorem size_boundary_exact_witness :
    (((transcribe_mp4 wBoundary "big.mp4").1 = none ∧
      Event.print ("Error: File size (" ++ fmt1 (fileSize wBoundary "big.mp4") ++
        "MB) exceeds OpenAI\x27s 25MB limit.") ∈ (transcribe_mp4 wBoundary "big.mp4").2 ∧
      ∀ r, Event.remoteCall r ∉ (transcribe_mp4 wBoundary "big.mp4").2)
    ↔ 25 * 1048576 < fileSize wBoundary "big.mp4") :=
  size_boundary_exact wBoundary "big.mp4" rfl

/-- C10: on every execution path of `transcribe_mp4` the input handle is
scoped: either the trace touches no handle at all (the early returns),
or it decomposes as `pre ++ [open, remoteCall, close] ++ post` with no
handle event in `pre` or `post` — the handle is closed immediately after
the remote call returns or raises, and is never left open. -/
theorem file_handle_scoped (w : World) (p : String) :
    (transcribe_mp4 w p).2.all (fun e => !(isHandleEvent e)) = true ∨
    ∃ pre post r, (transcribe_mp4 w p).2 =
        pre ++ Event.openFile p :: Event.remoteCall r :: Event.closeFile p :: post ∧
      pre.all (fun e => !(isHandleEvent e)) = true ∧
      post.all (fun e => !(isHandleEvent e)) = true := by
  by_cases hex : fileExists w p = true
  · by_cases hsz : fileSize w p ≤ 26214400
    · right
      cases hrem : w.remote with
      | ok t =>
        refine ⟨checkTrace w p, [], RemoteResult.ok t, ?_, ?_, rfl⟩
        · rw [transcribe_ok w p t hex hsz hrem]
          simp [preTrace]
        · simp [checkTrace, isHandleEvent]
      | err m =>
        refine ⟨checkTrace w p, [Event.print ("Error during transcription: " ++ m)],
          RemoteResult.err m, ?_, ?_, by simp [isHandleEvent]⟩
        · rw [transcribe_err w p m hex hsz hrem]
          simp [preTrace]
        · simp [checkTrace, isHandleEvent]
    · left
      rw [transcribe_toobig w p hex (by omega)]
      simp [isHandleEvent]
  · left
    have hex' : fileExists w p = false := by
      cases h : fileExists w p
      · rfl
      · exact absurd h hex
    rw [transcribe_notfound w p hex']
    simp [isHandleEvent]

/-- C9: the success scenario is idempotent on the output artifact:
replaying the run's trace over the file store it already produced leaves
the store unchanged — the second run truncates and rewrites the same
file with the same content instead of appending or erroring — and the
output file holds exactly the transcript. -/
theorem rerun_overwrites_idempotent (w : World) (prog p t : String)
    (hk : envTruthy w.apiKey = true) (hex : fileExists w p = true)
    (hsz : fileSize w p ≤ 26214400) (hr : w.remote = RemoteResult.ok t)
    (ht : t ≠ "") (fs0 : String → Option String) :
    runFiles (runFiles fs0 (main [prog, p] w)) (main [prog, p] w) =
      runFiles fs0 (main [prog, p] w) ∧
    runFiles fs0 (main [prog, p] w) (pathStem p ++ "_transcript.txt") = some t := by
  have h := main_success w prog p t hk hex hsz hr ht
  rw [h]
  constructor
  · funext q
    simp only [runFiles, successTrace, preTrace, checkTrace, List.cons_append,
      List.nil_append, List.foldl_cons, List.foldl_nil, List.append_assoc,
      List.foldl_append, applyEvent]
    by_cases hq : q = pathStem p ++ "_transcript.txt" <;> simp [hq]
  · simp only [runFiles, successTrace, preTrace, checkTrace, List.cons_append,
      List.nil_append, List.foldl_cons, List.foldl_nil, List.append_assoc,
      List.foldl_append, applyEvent]
    simp

/-- Witness for C9 at the spec's success scenario, starting from an
empty file store. -/
theorem rerun_overwrites_idempotent_witness :
    (runFiles (runFiles (fun _ => none) (main ["transcribe_mp4.py", "clip.mp4"] wDemo))
        (main ["transcribe_mp4.py", "clip.mp4"] wDemo) =
      runFiles (fun _ => none) (main ["transcribe_mp4.py", "clip.mp4"] wDemo) ∧
    runFiles (fun _ => none) (main ["transcribe_mp4.py", "clip.mp4"] wDemo)
        (pathStem "clip.mp4" ++ "_transcript.txt") = some "hello world") :=
  rerun_overwrites_idempotent wDemo "transcribe_mp4.py" "clip.mp4" "hello world"
    rfl rfl (by decide) rfl (by decide) (fun _ => none)

/-- C4: the exit status is always 0 or 1, and it is 0 exactly when the
run fully succeeds: two `argv` entries, truthy credential, existing
input file of at most 26214400 bytes, a remote call returning some
non-empty transcript.  Consequently wrong argument count, missing
credential, file-not-found, size-limit exceeded, remote-call failure and
the empty transcript all exit with status 1. -/
theorem exit_zero_iff_success (argv : List String) (w : World) :
    ((main argv w).exitCode = 0 ∨ (main argv w).exitCode = 1) ∧
    ((main argv w).exitCode = 0 ↔
      ∃ prog p t, argv = [prog, p] ∧ envTruthy w.apiKey = true ∧
        fileExists w p = true ∧ fileSize w p ≤ 26214400 ∧
        w.remote = RemoteResult.ok t ∧ t ≠ "") := by
  match argv with
  | [] =>
    rw [main_usage w [] (by decide)]
    refine ⟨Or.inr rfl, ?_⟩
    constructor
    · intro h0
      simp at h0
    · rintro ⟨prog, p, t, heq, -⟩
      simp at heq
  | [a] =>
    rw [main_usage w [a] (by simp)]
    refine ⟨Or.inr rfl, ?_⟩
    constructor
    · intro h0
      simp at h0
    · rintro ⟨prog, p, t, heq, -⟩
      simp at heq
  | a :: b :: c :: rest =>
    rw [main_usage w (a :: b :: c :: rest) (by simp)]
    refine ⟨Or.inr rfl, ?_⟩
    constructor
    · intro h0
      simp at h0
    · rintro ⟨prog, p, t, heq, -⟩
      simp at heq
  | [a, b] =>
    by_cases hk : envTruthy w.apiKey = true
    · by_cases hex : fileExists w b = true
      · by_cases hsz : fileSize w b ≤ 26214400
        · cases hrem : w.remote with
          | ok t =>
            by_cases ht : t = ""
            · subst ht
              rw [main_emptyt w a b hk hex hsz hrem]
              refine ⟨Or.inr rfl, ?_⟩
              constructor
              · intro h0
                simp at h0
              · rintro ⟨prog, p, t2, heq, -, -, -, hrem2, ht2⟩
                injection hrem2 with h7
                exact absurd h7.symm ht2
            · rw [main_success w a b t hk hex hsz hrem ht]
              refine ⟨Or.inl rfl, ?_⟩
              constructor
              · intro h0
                exact ⟨a, b, t, rfl, hk, hex, hsz, rfl, ht⟩
              · intro h0
                rfl
          | err m =>
            rw [main_err w a b m hk hex hsz hrem]
            refine ⟨Or.inr rfl, ?_⟩
            constructor
            · intro h0
              simp at h0
            · rintro ⟨prog, p, t2, heq, -, -, -, hrem2, -⟩
              cases hrem2
        · rw [main_toobig w a b hk hex (by omega)]
          refine ⟨Or.inr rfl, ?_⟩
          constructor
          · intro h0
            simp at h0
          · rintro ⟨prog, p, t2, heq, -, -, hsz2, -, -⟩
            simp at heq
            obtain ⟨-, hbp⟩ := heq
            rw [← hbp] at hsz2
            exact absurd hsz2 hsz
      · have hex' : fileExists w b = false := by
          cases h : fileExists w b
          · rfl
          · exact absurd h hex
        rw [main_notfound w a b hk hex']
        refine ⟨Or.inr rfl, ?_⟩
        constructor
        · intro h0
          simp at h0
        · rintro ⟨prog, p, t2, heq, -, hex2, -⟩
          simp at heq
          obtain ⟨-, hbp⟩ := heq
          rw [← hbp] at hex2
          exact absurd hex2 hex
    · have hk' : envTruthy w.apiKey = false := by
        cases h : envTruthy w.apiKey
        · rfl
        · exact absurd h hk
      rw [main_nokey w a b hk']
      refine ⟨Or.inr rfl, ?_⟩
      constructor
      · intro h0
        simp at h0
      · rintro ⟨prog, p, t2, heq, hk2, -⟩
        exact absurd hk2 hk

end TranscribeMp4
